import Mathlib

/-!
Verification of the jc CLI dispatch module (jc/cli.py).

This file shallowly embeds the dispatch and presentation subsystem of the
jc command line tool: the static parser catalogue, color resolution for
the JSON formatter, magic syntax resolution, the user command executor,
standard syntax converter selection, meta operation selection and exit
code combination.  Python strings become Lean strings, Python integers
become Lean Int or Nat, Python functions that can raise are embedded with
Except, and the one subprocess call is abstracted as a spawn oracle that
either yields captured output or fails the way subprocess.Popen fails for
a missing executable.
-/

/-- Single quote character, written via its code point to keep source text plain. -/
def squoteChar : Char := Char.ofNat 39

/-- Double quote character, written via its code point. -/
def dquoteChar : Char := Char.ofNat 34

/-- One character string holding a single quote. -/
def squoteStr : String := String.mk [squoteChar]

/-- Static built in parser catalogue from jc/cli.py (the `parsers` list).
The module level plugin directory scan can append local plugin names when
the module loads; that scan reads the file system and is outside this
pure embedding, so the catalogue here is the static list. -/
def parsers : List String :=
  ["acpi", "airport", "airport-s", "arp", "blkid", "cksum", "crontab",
   "crontab-u", "csv", "date", "df", "dig", "dir", "dmidecode", "dpkg-l",
   "du", "env", "file", "finger", "free", "fstab", "group", "gshadow",
   "hash", "hashsum", "hciconfig", "history", "hosts", "id", "ifconfig",
   "ini", "iptables", "iw-scan", "jobs", "kv", "last", "ls", "lsblk",
   "lsmod", "lsof", "mount", "netstat", "ntpq", "passwd", "ping",
   "pip-list", "pip-show", "ps", "route", "rpm-qi", "shadow", "ss",
   "stat", "sysctl", "systemctl", "systemctl-lj", "systemctl-ls",
   "systemctl-luf", "systeminfo", "time", "timedatectl", "tracepath",
   "traceroute", "ufw", "ufw-appinfo", "uname", "upower", "uptime", "w",
   "wc", "who", "xml", "yaml"]

/-- Fixed dispatcher error exit code, `JC_ERROR_EXIT = 100` in jc/cli.py. -/
def JC_ERROR_EXIT : Int := 100

/-- Exit code combination from jc/cli.py: add the subprocess exit code and
the jc exit code, capping the sum at 255 (no lower bound is applied). -/
def combined_exit_code (program_exit : Int) (jc_exit : Int) : Int :=
  let exit_code := program_exit + jc_exit
  if exit_code > 255 then 255 else exit_code

/-- Pygments color table from jc/cli.py.  The source holds two variants of
this table keyed by the installed pygments version; the two variants have
exactly the same sixteen keys and differ only in the color value strings,
and only the key set matters for validation, so the pygments 2.4+ variant
is embedded. -/
def PYGMENT_COLOR : List (String × String) :=
  [("black", "ansiblack"), ("red", "ansired"), ("green", "ansigreen"),
   ("yellow", "ansiyellow"), ("blue", "ansiblue"),
   ("magenta", "ansimagenta"), ("cyan", "ansicyan"), ("gray", "ansigray"),
   ("brightblack", "ansibrightblack"), ("brightred", "ansibrightred"),
   ("brightgreen", "ansibrightgreen"),
   ("brightyellow", "ansibrightyellow"), ("brightblue", "ansibrightblue"),
   ("brightmagenta", "ansibrightmagenta"),
   ("brightcyan", "ansibrightcyan"), ("white", "ansiwhite")]

/-- Dictionary lookup in the pygments color table, `PYGMENT_COLOR.get`
style: none when the key is absent. -/
def pygmentLookup (k : String) : Option String :=
  (PYGMENT_COLOR.find? (fun p => p.1 == k)).map (fun p => p.2)

/-- Dictionary indexing `PYGMENT_COLOR[k]`, which raises KeyError in
Python when the key is absent; the raise is embedded as an error value. -/
def pygmentKey (k : String) : Except String String :=
  match pygmentLookup k with
  | some v => Except.ok v
  | none => Except.error "KeyError"

/-- List indexing `l[i]`, which raises IndexError in Python when out of
range; the raise is embedded as an error value. -/
def listIndex (l : List String) (i : Nat) : Except String String :=
  match l.get? i with
  | some v => Except.ok v
  | none => Except.error "IndexError"

/-- Character level field splitter with Python `str.split(sep)` semantics:
every separator occurrence starts a new field and empty fields are kept,
so the empty input yields one empty field. -/
def listFields (p : Char → Bool) : List Char → List (List Char)
  | [] => [[]]
  | c :: rest =>
    let r := listFields p rest
    if p c then [] :: r
    else
      match r with
      | t :: ts => (c :: t) :: ts
      | [] => [[c]]

/-- Python `s.split(",")`: comma separated fields, empties kept. -/
def pyCommaSplit (s : String) : List String :=
  (listFields (fun c => c = ',') s.toList).map (fun cs => String.mk cs)

/-- Python whitespace test for `str.split()` with no argument, over the
ASCII whitespace characters. -/
def pyIsSpace (c : Char) : Bool :=
  c = ' ' || c = '\t' || c = '\n' || c = '\r' ||
  c = Char.ofNat 11 || c = Char.ofNat 12

/-- Python `s.split()` with no argument: split on runs of whitespace and
drop empty fields. -/
def pyWhitespaceSplit (s : String) : List String :=
  ((listFields pyIsSpace s.toList).filter (fun t => !t.isEmpty)).map
    (fun cs => String.mk cs)

/-- Characters the Python shlex.quote unsafe scanner accepts, that is the
ASCII class of word characters plus the punctuation listed in the shlex
module regular expression. -/
def shlexSafeChar (c : Char) : Bool :=
  c.isAlphanum || c = '_' || c = '@' || c = '%' || c = '+' || c = '=' ||
  c = ':' || c = ',' || c = '.' || c = '/' || c = '-'

/-- The quote doubling rewrite performed by shlex.quote on each embedded
single quote character. -/
def shlexEscapeQuotes : List Char → List Char
  | [] => []
  | c :: rest =>
    if c = squoteChar then
      squoteChar :: dquoteChar :: squoteChar :: dquoteChar :: squoteChar ::
        shlexEscapeQuotes rest
    else c :: shlexEscapeQuotes rest

/-- Python shlex.quote: the empty string becomes two quotes, a string of
safe characters is returned unchanged, and anything else is wrapped in
single quotes with embedded single quotes rewritten. -/
def shlexQuote (s : String) : String :=
  if s = "" then squoteStr ++ squoteStr
  else if s.toList.all shlexSafeChar then s
  else squoteStr ++ String.mk (shlexEscapeQuotes s.toList) ++ squoteStr

/-- Python `sep.join(l)`. -/
def pyJoin (sep : String) : List String → String
  | [] => ""
  | [a] => a
  | a :: b :: rest => a ++ sep ++ pyJoin sep (b :: rest)

/-- Boolean string matching for Python `s.startswith(pre)`. -/
def listIsPrefixOf : List Char → List Char → Bool
  | [], _ => true
  | _ :: _, [] => false
  | a :: as, b :: bs => a = b && listIsPrefixOf as bs

/-- Python `s.startswith(pre)`. -/
def pyStartsWith (s : String) (pre : String) : Bool :=
  listIsPrefixOf pre.toList s.toList

/-- Line 415 of jc/cli.py: the argument vector tail is quoted with
shlex.quote, joined on single spaces, and then re-split with the plain
whitespace `str.split()`. -/
def retokenizeArgs (tail : List String) : List String :=
  pyWhitespaceSplit (pyJoin " " (tail.map shlexQuote))

/-- Converter descriptor fields consumed by the magic command table: the
flag form argument built by parser_argument and the declared magic
command phrases from the parser info attribute. -/
structure ParserInfoEntry where
  argument : String
  magic_commands : List String

/-- One Python dict insertion `d[mc] = arg`, as a function update. -/
def magicDictUpdate (arg : String) (d : String → Option String)
    (mc : String) : String → Option String :=
  fun k => if k = mc then some arg else d k

/-- Lines 440 to 446 of jc/cli.py: the magic command table is built by
starting from an empty dict and calling `magic_dict.update` with each
converter entry in catalogue order, inserting every declared magic
command phrase mapped to that converter flag argument.  Python dict
update overwrites existing keys. -/
def magicDictOf (pinfo : List ParserInfoEntry) : String → Option String :=
  pinfo.foldl
    (fun d e => e.magic_commands.foldl (magicDictUpdate e.argument) d)
    (fun _ => none)

/-- Option scanning loop of magic_parser (lines 419 to 430): the Python
code iterates over a copy of the token list while popping handled tokens
from the front, which is equivalent to this front to back recursion.  A
double dash token aborts magic syntax (none); a single dash token
contributes its characters after the dash to the option list; the first
other token stops the scan, leaving it and everything after it as the
candidate user command. -/
def scanMagicOptions : List String → List Char →
    Option (List String × List Char)
  | [], options => some ([], options)
  | a :: rest, options =>
    if pyStartsWith a "--" then none
    else if pyStartsWith a "-" then
      scanMagicOptions rest (options ++ a.toList.drop 1)
    else some (a :: rest, options)

/-- Python truthiness of the found parser value: a present nonempty
string is truthy, an absent value is falsy. -/
def pyTruthyOptStr : Option String → Bool
  | some s => !(s == "")
  | none => false

/-- The magic_parser function of jc/cli.py, parameterized by the
converter info list that about_jc would enumerate (the parser modules
live outside this file).  Returns the tuple
(valid_command, run_command, jc parser flag, jc options). -/
def magicParser (pinfo : List ParserInfoEntry) (args : List String) :
    Bool × Option (List String) × Option String × List Char :=
  match args with
  | _ :: a1 :: rest2 =>
    if pyStartsWith a1 "--" then (false, none, none, [])
    else
      let args_given := retokenizeArgs (a1 :: rest2)
      match scanMagicOptions args_given [] with
      | none => (false, none, none, [])
      | some (remaining, options) =>
        if options.contains 'h' || options.contains 'a' ||
            options.contains 'v' then
          (false, none, none, [])
        else
          match remaining with
          | [] => (false, none, none, [])
          | c :: cs =>
            let magic_dict := magicDictOf pinfo
            let two_word := pyJoin " " ((c :: cs).take 2)
            let found :=
              match magic_dict two_word with
              | some p => some p
              | none => magic_dict c
            (pyTruthyOptStr found, some (c :: cs), found, options)
  | _ => (false, none, none, [])

/-- Captured result of a completed child process: decoded stdout and
stderr text and the integer return code. -/
structure RawProcResult where
  stdout : String
  stderr : String
  returncode : Int

/-- Failure mode of spawning a child process: subprocess.Popen raises
FileNotFoundError when the named executable does not exist. -/
inductive SpawnError
  | fileNotFound
deriving DecidableEq

/-- The run_user_command function of jc/cli.py (lines 463 to 472),
parameterized by a spawn oracle standing for subprocess.Popen plus
communicate.  The source contains no exception handling, so a spawn
failure propagates; on a completed process the tuple is returned with
stdout defaulted to a single newline when it is empty (the Python
`stdout or` newline expression), whatever the return code is. -/
def run_user_command
    (spawn : List String → Except SpawnError RawProcResult)
    (command : List String) : Except SpawnError (String × String × Int) :=
  match spawn command with
  | Except.error e => Except.error e
  | Except.ok proc =>
    Except.ok
      (if proc.stdout = "" then "\n" else proc.stdout,
       proc.stderr, proc.returncode)

/-- Spawn oracle for a system with no dig binary: spawning dig fails the
way subprocess.Popen fails for a missing executable, and other commands
complete. -/
def noDigSpawn : List String → Except SpawnError RawProcResult :=
  fun command =>
    if command.head? = some "dig" then Except.error SpawnError.fileNotFound
    else Except.ok ⟨"", "", 0⟩

/-- Spawn oracle for a command that completes with a nonzero exit code,
empty stdout and populated stderr. -/
def falseCmdSpawn : List String → Except SpawnError RawProcResult :=
  fun _ => Except.ok ⟨"", "boom\n", 1⟩

/-- Spawn oracle with one command producing no stdout and another
producing nonempty stdout. -/
def echoSpawn : List String → Except SpawnError RawProcResult :=
  fun command =>
    if command = ["true"] then Except.ok ⟨"", "", 0⟩
    else Except.ok ⟨"hello\n", "", 0⟩

/-- The parser_argument function of jc/cli.py: short name to double dash
flag form. -/
def parser_argument (p : String) : String := "--" ++ p

/-- The parser_shortname function of jc/cli.py: drop the first two
characters of the argument (the source slices `parser_argument[2:]`
without checking what those characters are). -/
def parser_shortname (arg : String) : String :=
  String.mk (arg.toList.drop 2)

/-- The per argument test of the standard syntax converter scan in main
(lines 561 to 564): the argument is selected when its shortname, meaning
the characters after the first two, is in the parser catalogue. -/
def selectsByFlagScan (arg : String) : Bool :=
  parsers.contains (parser_shortname arg)

/-- The standard syntax converter scan of main: walk the full argument
vector and stop at the first argument whose shortname is a registered
parser name. -/
def findStdParser (argv : List String) : Option String :=
  argv.find? selectsByFlagScan

/-- Option collection of main (lines 517 to 519): every argument that
starts with a single dash and not a double dash contributes its
characters after the dash. -/
def collectFlags (argv : List String) : List Char :=
  argv.foldl
    (fun acc opt =>
      if pyStartsWith opt "-" && !(pyStartsWith opt "--") then
        acc ++ opt.toList.drop 1
      else acc)
    []

/-- Meta operations main can short circuit into. -/
inductive MetaOp
  | about
  | help
  | version
deriving DecidableEq

/-- Meta operation selection order of main (lines 534 to 544): the about
branch is tested first, then help, then version; each prints its payload
and exits 0. -/
def metaSelection (options : List Char) : Option MetaOp :=
  if options.contains 'a' then some MetaOp.about
  else if options.contains 'h' then some MetaOp.help
  else if options.contains 'v' then some MetaOp.version
  else none

/-- Default color configuration list used by set_env_colors. -/
def defaultColorList : List String :=
  ["default", "default", "default", "default"]

/-- Validation condition of set_env_colors (lines 207 to 212): the input
is in error when the comma split list does not have exactly 4 fields or
when any field is neither the literal default nor a palette name. -/
def colorListError (color_list : List String) : Bool :=
  (color_list.length != 4) ||
  color_list.any (fun c => c != "default" && (pygmentLookup c).isNone)

/-- The four semantic color slots returned by set_env_colors: key names,
keywords, numbers and string values. -/
structure ColorScheme where
  nameTag : String
  keyword : String
  number : String
  stringValue : String
deriving DecidableEq

/-- Scheme construction of set_env_colors (lines 220 to 225): each slot
indexes the color list and the pygments table, taking the hard coded
fallback color when the slot says default; the key name slot gets a bold
marker in both branches. -/
def buildColorScheme (color_list : List String) :
    Except String ColorScheme := do
  let c0 ← listIndex color_list 0
  let c1 ← listIndex color_list 1
  let c2 ← listIndex color_list 2
  let c3 ← listIndex color_list 3
  let nameTagColor ← if c0 = "default" then pygmentKey "blue"
                     else pygmentKey c0
  let keywordColor ← if c1 = "default" then pygmentKey "brightblack"
                     else pygmentKey c1
  let numberColor ← if c2 = "default" then pygmentKey "magenta"
                    else pygmentKey c2
  let stringColor ← if c3 = "default" then pygmentKey "green"
                    else pygmentKey c3
  Except.ok ⟨"bold " ++ nameTagColor, keywordColor, numberColor,
             stringColor⟩

/-- The set_env_colors function of jc/cli.py.  The Nat component counts
the warning messages emitted through jc.utils.warning_message.  A missing
or empty environment value is falsy in Python, so it is replaced by the
default list before validation; a validation failure emits one warning
and falls back to the default list. -/
def set_env_colors (env_colors : Option String) :
    Except String (Nat × ColorScheme) :=
  let color_list :=
    match env_colors with
    | some s => if s = "" then defaultColorList else pyCommaSplit s
    | none => defaultColorList
  if colorListError color_list then
    (buildColorScheme defaultColorList).map (fun scheme => (1, scheme))
  else
    (buildColorScheme color_list).map (fun scheme => (0, scheme))

/-- Malformed color configuration string in the sense of the spec: the
comma split fields fail the set_env_colors validation. -/
def malformedColorSpec (s : String) : Bool :=
  colorListError (pyCommaSplit s)

/-- All default color scheme produced from the default color list. -/
def defaultColorScheme : ColorScheme :=
  ⟨"bold ansiblue", "ansibrightblack", "ansimagenta", "ansigreen"⟩

/-- Converter info list with a one word phrase that is a one word
whole word head of a two word phrase of a different converter. -/
def pinfoC2 : List ParserInfoEntry :=
  [⟨"--systemctl", ["systemctl"]⟩,
   ⟨"--systemctl-ls", ["systemctl list-sockets"]⟩]

/-- Converter info list with two converters declaring the same magic
command phrase. -/
def pinfoC3 : List ParserInfoEntry :=
  [⟨"--first", ["foo"]⟩, ⟨"--second", ["foo"]⟩]

/-! Theorems. -/

/-- C1: for all non negative integer exit codes x and y, the exit code
combination returns the sum capped at 255, that is min 255 (x + y). -/
theorem combined_exit_code_min_cap (x y : Int) (hx : 0 ≤ x) (hy : 0 ≤ y) :
    combined_exit_code x y = min 255 (x + y) := by
  simp only [combined_exit_code]
  by_cases h : x + y > 255
  · rw [if_pos h, min_eq_left h.le]
  · rw [if_neg h, min_eq_right (not_lt.mp h)]

/-- Witness for C1: the combination of 200 and 100 is min 255 300 = 255
and the combination of 0 and 0 is min 255 0 = 0, through the theorem. -/
theorem combined_exit_code_min_cap_witness :
    (0 : Int) ≤ 200 ∧ (0 : Int) ≤ 100 ∧
    combined_exit_code 200 100 = 255 ∧ combined_exit_code 0 0 = 0 :=
  ⟨by decide, by decide,
   by rw [combined_exit_code_min_cap 200 100 (by decide) (by decide)]; decide,
   by rw [combined_exit_code_min_cap 0 0 (by decide) (by decide)]; decide⟩

/-- C10: the exit code combination applies only the upper cap: whenever
the integer sum is at most 255, including when one input is negative as
for a signal killed child, the exact sum is returned. -/
theorem combined_exit_code_no_lower_bound (x y : Int) (h : x + y ≤ 255) :
    combined_exit_code x y = x + y := by
  simp only [combined_exit_code]
  rw [if_neg (not_lt.mpr h)]

/-- Witness for C10: a subprocess exit code of -9 combined with the jc
error constant 100 yields 91, below the error constant and uncapped. -/
theorem combined_exit_code_no_lower_bound_witness :
    (-9 : Int) + 100 ≤ 255 ∧ combined_exit_code (-9) 100 = -9 + 100 ∧
    combined_exit_code (-9) 100 < JC_ERROR_EXIT :=
  ⟨by decide, combined_exit_code_no_lower_bound (-9) 100 (by decide),
   by rw [combined_exit_code_no_lower_bound (-9) 100 (by decide)]; decide⟩

/-- C7 counterexample: with no dig binary on the system the spawn fails
the way subprocess.Popen fails for a missing executable, and since
run_user_command contains no exception handling the failure propagates
instead of an ExecutionOutcome triple being returned. -/
theorem run_user_command_missing_binary_error :
    run_user_command noDigSpawn ["dig", "example.com"] =
      Except.error SpawnError.fileNotFound ∧
    (run_user_command noDigSpawn ["dig", "example.com"]).toOption =
      none :=
  ⟨rfl, rfl⟩

/-- C7 amended: for every user command whose spawn completes,
run_user_command returns the outcome triple and never raises, whatever
the exit code is; a spawn failure (such as a missing binary) propagates
as the error it is. -/
theorem run_user_command_spawn_outcomes
    (spawn : List String → Except SpawnError RawProcResult)
    (command : List String) :
    (∀ proc : RawProcResult, spawn command = Except.ok proc →
      run_user_command spawn command =
        Except.ok (if proc.stdout = "" then "\n" else proc.stdout,
                   proc.stderr, proc.returncode)) ∧
    (∀ e : SpawnError, spawn command = Except.error e →
      run_user_command spawn command = Except.error e) := by
  constructor
  · intro proc h
    simp [run_user_command, h]
  · intro e h
    simp [run_user_command, h]

/-- Witness for C7 amended: a command that completes with exit code 1 and
populated stderr still yields an ok outcome. -/
theorem run_user_command_spawn_outcomes_witness :
    falseCmdSpawn ["false"] = Except.ok ⟨"", "boom\n", 1⟩ ∧
    run_user_command falseCmdSpawn ["false"] =
      Except.ok ("\n", "boom\n", 1) :=
  ⟨rfl, by
    have h := (run_user_command_spawn_outcomes falseCmdSpawn ["false"]).1
      ⟨"", "boom\n", 1⟩ rfl
    simpa using h⟩

/-- C9: for every executed user command (one whose spawn completed), an
empty child stdout is replaced by a single newline and a nonempty child
stdout is returned unchanged. -/
theorem run_user_command_stdout_defaulting
    (spawn : List String → Except SpawnError RawProcResult)
    (command : List String) (proc : RawProcResult)
    (h : spawn command = Except.ok proc) :
    (proc.stdout = "" →
      run_user_command spawn command =
        Except.ok ("\n", proc.stderr, proc.returncode)) ∧
    (proc.stdout ≠ "" →
      run_user_command spawn command =
        Except.ok (proc.stdout, proc.stderr, proc.returncode)) := by
  constructor
  · intro h2
    simp [run_user_command, h, h2]
  · intro h2
    simp [run_user_command, h, h2]

/-- Witness for C9: a command with empty stdout yields a newline and a
command with nonempty stdout is passed through unchanged. -/
theorem run_user_command_stdout_defaulting_witness :
    run_user_command echoSpawn ["true"] = Except.ok ("\n", "", 0) ∧
    run_user_command echoSpawn ["echo", "hello"] =
      Except.ok ("hello\n", "", 0) :=
  ⟨(run_user_command_stdout_defaulting echoSpawn ["true"]
      ⟨"", "", 0⟩ rfl).1 rfl,
   (run_user_command_stdout_defaulting echoSpawn ["echo", "hello"]
      ⟨"hello\n", "", 0⟩ rfl).2 (by decide)⟩

/-- Helper: applying the fold of dict insertions for one entry looks up
to the inserted value exactly on the inserted phrases, since every
insertion of the fold carries the same argument value. -/
theorem magicDict_update_foldl_apply (arg : String) (mcs : List String)
    (d : String → Option String) (k : String) :
    (mcs.foldl (magicDictUpdate arg) d) k =
      if k ∈ mcs then some arg else d k := by
  induction mcs generalizing d with
  | nil => simp
  | cons mc rest ih =>
    simp only [List.foldl_cons, ih, magicDictUpdate, List.mem_cons]
    by_cases h1 : k ∈ rest
    · simp [h1]
    · by_cases h2 : k = mc <;> simp [h1, h2]

/-- C3 counterexample: two converters declare the phrase foo; the built
table maps foo to the second converter, not to the first one as the
claim states, because Python dict update overwrites existing keys. -/
theorem magic_dict_first_wins_counterexample :
    magicDictOf pinfoC3 "foo" = some "--second" ∧
    (some "--second" : Option String) ≠ some "--first" :=
  ⟨rfl, by decide⟩

/-- C3 amended: when the trigger phrase table is built in catalogue
enumeration order, the last converter declaring a phrase wins; a phrase
declared by the final entry maps to that entry, whatever the earlier
entries declared. -/
theorem magic_dict_last_wins (ps : List ParserInfoEntry)
    (e : ParserInfoEntry) (mc : String) (hmem : mc ∈ e.magic_commands) :
    magicDictOf (ps ++ [e]) mc = some e.argument := by
  unfold magicDictOf
  rw [List.foldl_append]
  simp only [List.foldl_cons, List.foldl_nil]
  rw [magicDict_update_foldl_apply]
  simp [hmem]

/-- Witness for C3 amended: with the colliding catalogue, the phrase of
the appended entry resolves to that entry. -/
theorem magic_dict_last_wins_witness :
    "foo" ∈ (ParserInfoEntry.mk "--second" ["foo"]).magic_commands ∧
    magicDictOf
      ([ParserInfoEntry.mk "--first" ["foo"]] ++
        [ParserInfoEntry.mk "--second" ["foo"]]) "foo" = some "--second" :=
  ⟨by decide,
   magic_dict_last_wins [ParserInfoEntry.mk "--first" ["foo"]]
     (ParserInfoEntry.mk "--second" ["foo"]) "foo" (by decide)⟩

/-- C4: the re-tokenization of line 415 does not keep a spaced argument
intact: the argument vector tail with the single spaced argument is
re-split into four tokens, the spaced argument coming back as two tokens
each polluted with a quote character, contradicting the source comment
that says escape characters and spaces are parsed correctly. -/
theorem retokenize_splits_spaced_argument :
    retokenizeArgs ["-p", "echo", "a b"] =
      ["-p", "echo", squoteStr ++ "a", "b" ++ squoteStr] ∧
    ¬ ("a b" ∈ retokenizeArgs ["-p", "echo", "a b"]) := by
  constructor
  · rfl
  · decide

/-- C5 counterexample: for the invocation with both meta flags and no
converter flag, the meta operation selection of main picks the about
payload, not the help payload, because the about branch is tested first
in main. -/
theorem meta_help_precedence_counterexample :
    metaSelection (collectFlags ["jc", "-h", "-a"]) = some MetaOp.about ∧
    (some MetaOp.about : Option MetaOp) ≠ some MetaOp.help := by
  constructor
  · rfl
  · decide

/-- C5 amended: for the invocation with both meta flags and no converter
flag, magic syntax detection returns non magic for every converter info
list, and the about payload takes precedence over the help payload in
the output selection of main. -/
theorem meta_about_over_help (pinfo : List ParserInfoEntry) :
    magicParser pinfo ["jc", "-h", "-a"] = (false, none, none, []) ∧
    metaSelection (collectFlags ["jc", "-h", "-a"]) =
      some MetaOp.about := by
  constructor
  · rfl
  · rfl

/-- Witness for C5 amended: the amended statement at the empty converter
info list. -/
theorem meta_about_over_help_witness :
    magicParser ([] : List ParserInfoEntry) ["jc", "-h", "-a"] =
      (false, none, none, []) ∧
    metaSelection (collectFlags ["jc", "-h", "-a"]) =
      some MetaOp.about :=
  meta_about_over_help []

/-- Helper: the shortname of the double dash flag form of a name is the
name itself. -/
theorem parser_shortname_of_argument (n : String) :
    parser_shortname (parser_argument n) = n := by
  cases n with
  | mk data => rfl

/-- C8 counterexample: the standard syntax scan selects on the argument
xydig, which is not the double dash flag form of any registered name
(it does not even start with a double dash), because the scan only
looks at the characters after the first two. -/
theorem std_flag_scan_counterexample :
    selectsByFlagScan "xydig" = true ∧
    pyStartsWith "xydig" "--" = false ∧
    findStdParser ["jc", "xydig"] = some "xydig" := by
  refine ⟨by decide, by decide, by decide⟩

/-- C8 amended: an argument is selected by the standard syntax scan
exactly when the characters after its first two form a registered
converter name; in particular every double dash flag form of a
registered name is selected, but the two leading characters themselves
are never checked. -/
theorem std_flag_scan_amended :
    (∀ arg : String,
      selectsByFlagScan arg = true ↔ parser_shortname arg ∈ parsers) ∧
    (∀ n : String, n ∈ parsers →
      selectsByFlagScan (parser_argument n) = true) := by
  have hmem : ∀ arg : String,
      selectsByFlagScan arg = true ↔ parser_shortname arg ∈ parsers := by
    intro arg
    simp [selectsByFlagScan]
  refine ⟨hmem, fun n hn => ?_⟩
  refine (hmem (parser_argument n)).mpr ?_
  rw [parser_shortname_of_argument]
  exact hn

/-- Witness for C8 amended: the registered name dig is selected through
its double dash flag form. -/
theorem std_flag_scan_amended_witness :
    "dig" ∈ parsers ∧ selectsByFlagScan (parser_argument "dig") = true :=
  ⟨by decide, std_flag_scan_amended.2 "dig" (by decide)⟩

/-- C6 counterexample: the empty string is malformed in the sense of the
claim (it does not split into exactly 4 comma separated tokens), yet
set_env_colors treats it as an absent configuration because the empty
string is falsy in Python: it emits zero warnings instead of exactly
one, while still returning the all default scheme. -/
theorem set_env_colors_empty_string_counterexample :
    malformedColorSpec "" = true ∧
    set_env_colors (some "") = Except.ok (0, defaultColorScheme) :=
  ⟨rfl, rfl⟩

/-- C6 amended: for every malformed nonempty color configuration string,
set_env_colors emits exactly one warning, returns the complete all
default scheme, and completes without an error value. -/
theorem set_env_colors_malformed_single_warning (s : String)
    (hs : s ≠ "") (hm : malformedColorSpec s = true) :
    set_env_colors (some s) = Except.ok (1, defaultColorScheme) := by
  unfold malformedColorSpec at hm
  simp only [set_env_colors, if_neg hs, hm, if_true]
  rfl

/-- Witness for C6 amended: the two field string is nonempty and
malformed, and resolves to one warning plus the all default scheme. -/
theorem set_env_colors_malformed_witness :
    "a,b" ≠ "" ∧ malformedColorSpec "a,b" = true ∧
    set_env_colors (some "a,b") = Except.ok (1, defaultColorScheme) :=
  ⟨by decide, by decide,
   set_env_colors_malformed_single_warning "a,b" (by decide) (by decide)⟩

/-- C2: for a magic invocation whose command tokens survive the
re-tokenization and whose first token is not an option, the resolver
looks up the phrase of the first two tokens joined by one space first:
when that phrase is registered the invocation resolves to its converter,
and only when the two token lookup fails does it fall back to the one
token phrase.  This holds for every converter info list, in particular
when a one word phrase of one converter is a two word phrase head of
another converter. -/
theorem magic_two_word_precedence (pinfo : List ParserInfoEntry)
    (w1 w2 : String) (rest : List String)
    (hret : retokenizeArgs (w1 :: w2 :: rest) = w1 :: w2 :: rest)
    (hdd : pyStartsWith w1 "--" = false)
    (hd : pyStartsWith w1 "-" = false) :
    (∀ p : String, magicDictOf pinfo (w1 ++ " " ++ w2) = some p →
      (magicParser pinfo ("jc" :: w1 :: w2 :: rest)).2.2.1 = some p) ∧
    (magicDictOf pinfo (w1 ++ " " ++ w2) = none →
      (magicParser pinfo ("jc" :: w1 :: w2 :: rest)).2.2.1 =
        magicDictOf pinfo w1) := by
  have hscan : scanMagicOptions (w1 :: w2 :: rest) [] =
      some (w1 :: w2 :: rest, []) := by
    simp [scanMagicOptions, hdd, hd]
  have htake : (w1 :: w2 :: rest).take 2 = [w1, w2] := rfl
  have hjoin : pyJoin " " [w1, w2] = w1 ++ " " ++ w2 := rfl
  constructor
  · intro p hp
    simp [magicParser, hdd, hret, hscan, htake, hjoin, hp]
  · intro hnone
    simp [magicParser, hdd, hret, hscan, htake, hjoin, hnone]

/-- Witness for C2: with the converter info list where one converter
declares the one word phrase systemctl and another declares the two word
phrase, the full two word command resolves to the converter registered
for the two word phrase, not to the one word converter. -/
theorem magic_two_word_precedence_witness :
    retokenizeArgs ["systemctl", "list-sockets"] =
      ["systemctl", "list-sockets"] ∧
    pyStartsWith "systemctl" "--" = false ∧
    pyStartsWith "systemctl" "-" = false ∧
    magicDictOf pinfoC2 ("systemctl" ++ " " ++ "list-sockets") =
      some "--systemctl-ls" ∧
    (magicParser pinfoC2 ["jc", "systemctl", "list-sockets"]).2.2.1 =
      some "--systemctl-ls" :=
  ⟨by decide, by decide, by decide, by decide,
   (magic_two_word_precedence pinfoC2 "systemctl" "list-sockets" []
      (by decide) (by decide) (by decide)).1 "--systemctl-ls"
      (by decide)⟩
